import Mathlib

/-!
Shallow embedding of the recommendation calculation engine of
`backend/src/services/recommendationService.ts`.

JavaScript numbers are modelled by exact rationals (`ℚ`); every constant in
the source (0.25, 1.2, 1.045, ...) is exactly representable and the claims
under study are stated over real-number semantics.  `Math.round` is modelled
by `jsRound` (round half towards positive infinity, the JS behaviour) and
`Math.pow(1.045, age - 25)` by `zpow` on `ℚ` with an integer exponent.
Coverage and premium amounts are integers (`ℤ`) in the source semantics and
are typed as such here.
-/

/-- Enumeration for the riskTolerance field: low, medium or high. -/
inductive RiskTolerance where
  | low
  | medium
  | high
deriving DecidableEq, Repr

/-- The `UserProfile` input interface: age, income, dependents, riskTolerance.
Age, income and dependents are integers (income ≥ 0 and dependents ≥ 0 per the
domain constraints, hence `ℕ`). -/
structure UserProfile where
  age : ℕ
  income : ℕ
  dependents : ℕ
  riskTolerance : RiskTolerance
deriving DecidableEq, Repr

/-- The `Recommendation` output interface: type, coverage, term, monthlyPremium. -/
structure Recommendation where
  type : String
  coverage : ℤ
  term : ℕ
  monthlyPremium : ℤ
deriving DecidableEq, Repr

/-- The `factors` field of `RecommendationResponse`. -/
structure Factors where
  incomeMultiplier : ℚ
  dependentsFactor : ℚ
  riskAdjustment : ℚ
deriving DecidableEq, Repr

/-- The `RecommendationResponse` output interface. -/
structure RecommendationResponse where
  recommendation : Recommendation
  explanation : String
  factors : Factors
deriving DecidableEq, Repr

/-- The `PremiumFactors` interface used by premium pricing. -/
structure PremiumFactors where
  basePremiumRate : ℚ
  ageFactor : ℚ
  termFactor : ℚ
  typeFactor : ℚ
  healthFactor : ℚ
deriving DecidableEq, Repr

/-- Domain constraints on a profile (§3 of the spec): age ∈ [18,100]; income ≥ 0
and dependents ≥ 0 hold by the `ℕ` typing; riskTolerance is already an
enumeration. -/
def ValidProfile (p : UserProfile) : Prop :=
  18 ≤ p.age ∧ p.age ≤ 100

instance (p : UserProfile) : Decidable (ValidProfile p) := by
  unfold ValidProfile
  infer_instance

/-- JavaScript `Math.round`: round half towards positive infinity. -/
def jsRound (q : ℚ) : ℤ :=
  ⌊q + 1 / 2⌋

/-- JavaScript `Number.prototype.toFixed(0)`: round half away from zero,
rendered as a decimal string. -/
def toFixed0 (q : ℚ) : String :=
  if q < 0 then toString (-jsRound (-q)) else toString (jsRound q)

/-- Constant `DEPENDENT_MULTIPLIER` = 0.25. -/
def DEPENDENT_MULTIPLIER : ℚ := 0.25

/-- Constant `MIN_COVERAGE` = 100000. -/
def MIN_COVERAGE : ℤ := 100000

/-- Constant `INCOME_CAP_MULTIPLIER` = 30. -/
def INCOME_CAP_MULTIPLIER : ℤ := 30

/-- Table `RISK_ADJUSTMENTS`: low 1.2, medium 1.0, high 0.8. -/
def RISK_ADJUSTMENTS : RiskTolerance → ℚ
  | .low => 1.2
  | .medium => 1.0
  | .high => 0.8

/-- Port of `getIncomeMultiplier` with the `BASE_MULTIPLIERS` table
(young 15, midAge 12, mature 10, senior 8), evaluated in order. -/
def getIncomeMultiplier (age : ℕ) : ℚ :=
  if age < 30 then 15
  else if age < 40 then 12
  else if age < 50 then 10
  else 8

/-- Port of `calculateCoverage`: raw product, snap to the nearest 10,000, floor at
`MIN_COVERAGE`, then cap at `income * INCOME_CAP_MULTIPLIER`, in that order. -/
def calculateCoverage (income : ℕ) (incomeMultiplier dependentsFactor riskAdjustment : ℚ) : ℤ :=
  let coverage : ℚ := income * incomeMultiplier * dependentsFactor * riskAdjustment
  let snapped : ℤ := jsRound (coverage / 10000) * 10000
  let floored : ℤ := max snapped MIN_COVERAGE
  min floored ((income : ℤ) * INCOME_CAP_MULTIPLIER)

/-- Port of `determineTerm`, evaluated in order. -/
def determineTerm (age : ℕ) : ℕ :=
  if age < 35 then 30
  else if age < 45 then 20
  else if age < 55 then 15
  else 10

/-- Port of `determineInsuranceType`, evaluated in order, first match wins. -/
def determineInsuranceType (p : UserProfile) : String :=
  if p.riskTolerance = .low ∧ p.income > 150000 then "Whole Life"
  else if p.riskTolerance = .medium ∧ p.income > 200000 ∧ p.age < 50 then "Universal Life"
  else "Term Life"

/-- Port of `getPremiumFactors`: base rate 0.5, exponential age loading 1.045^(age-25),
term and type factor tables (switch with default 1.0), healthFactor 1.0. -/
def getPremiumFactors (age : ℕ) (term : ℕ) (type : String) : PremiumFactors :=
  let basePremiumRate : ℚ := 0.5
  let ageFactor : ℚ := (1.045 : ℚ) ^ ((age : ℤ) - 25)
  let termFactor : ℚ :=
    if term = 10 then 1.2
    else if term = 15 then 1.1
    else if term = 20 then 1.0
    else if term = 30 then 0.9
    else 1.0
  let typeFactor : ℚ :=
    if type = "Term Life" then 1.0
    else if type = "Whole Life" then 3.5
    else if type = "Universal Life" then 2.5
    else 1.0
  let healthFactor : ℚ := 1.0
  ⟨basePremiumRate, ageFactor, termFactor, typeFactor, healthFactor⟩

/-- Port of `calculatePremium`: coverage units × base rate, loaded by the premium
factors, adjusted ±5% for high/low risk tolerance, then `Math.round`ed. -/
def calculatePremium (age : ℕ) (coverage : ℤ) (term : ℕ) (type : String)
    (riskTolerance : RiskTolerance) : ℤ :=
  let factors := getPremiumFactors age term type
  let coverageUnits : ℚ := (coverage : ℚ) / 1000
  let p0 : ℚ := coverageUnits * factors.basePremiumRate
  let p1 : ℚ := p0 * factors.ageFactor * factors.termFactor * factors.typeFactor *
    factors.healthFactor
  let p2 : ℚ :=
    if riskTolerance = .high then p1 * 0.95
    else if riskTolerance = .low then p1 * 1.05
    else p1
  jsRound p2

/-- Digit grouping on a reversed digit list: a comma after every three digits
while more digits remain. -/
def commaGroupRev : List Char → List Char
  | a :: b :: c :: d :: rest => a :: b :: c :: ',' :: commaGroupRev (d :: rest)
  | l => l

/-- JavaScript `Number.prototype.toLocaleString()` on a natural number, in the
default en-US grouping the source relies on: thousands separated by commas. -/
def natLocaleString (n : ℕ) : String :=
  String.mk (commaGroupRev (toString n).data.reverse).reverse

/-- JavaScript `toLocaleString` on an integer amount. -/
def intLocaleString (i : ℤ) : String :=
  if i < 0 then "-" ++ natLocaleString i.natAbs else natLocaleString i.natAbs

/-- Port of `generateExplanation`: templated sentences selected by age band,
dependents, risk tolerance and policy type, joined with single spaces. -/
def generateExplanation (profile : UserProfile) (coverage : ℤ) (term : ℕ)
    (type : String) (factors : Factors) : String :=
  let ageSentence : String :=
    if profile.age < 35 then
      "At " ++ toString profile.age ++
      " years old, you\x27re in a prime age for securing affordable life insurance. " ++
      "We recommend a " ++ toString term ++
      "-year term to provide coverage through your key earning years."
    else if profile.age < 50 then
      "At " ++ toString profile.age ++
      " years old, life insurance is crucial for protecting your family\x27s financial future. " ++
      "A " ++ toString term ++ "-year term aligns well with your remaining working years."
    else
      "At " ++ toString profile.age ++ " years old, a " ++ toString term ++
      "-year term provides essential coverage " ++
      "while keeping premiums manageable as you approach retirement."
  let incomeSentence : String :=
    "Based on your annual income of $" ++ natLocaleString profile.income ++
    ", we applied a " ++ toString factors.incomeMultiplier ++
    "x multiplier. This ensures your loved ones " ++
    "can maintain their current lifestyle and meet long-term financial obligations."
  let dependentsSentence : String :=
    if profile.dependents > 0 then
      let dependentText := if profile.dependents = 1 then "dependent" else "dependents"
      "With " ++ toString profile.dependents ++ " " ++ dependentText ++
      ", we\x27ve increased your coverage by " ++
      toFixed0 ((factors.dependentsFactor - 1) * 100) ++
      "% to account for education costs, " ++
      "childcare, and other family expenses."
    else
      "While you have no dependents, life insurance can still cover final expenses, " ++
      "outstanding debts, and provide for any future family plans."
  let riskSentence : String :=
    match profile.riskTolerance with
    | .low =>
      "Your conservative risk preference indicates a focus on maximum protection. " ++
      "We\x27ve adjusted your coverage upward to provide additional security."
    | .medium =>
      "Your balanced risk tolerance allows for a standard coverage approach " ++
      "that provides solid protection without over-insuring."
    | .high =>
      "Your higher risk tolerance suggests you may have other investments in place. " ++
      "We\x27ve recommended efficient coverage that complements your overall financial strategy."
  let typeSentence : String :=
    if type = "Whole Life" then
      "Given your income level and conservative approach, whole life insurance provides " ++
      "permanent coverage with a cash value component that grows tax-deferred over time."
    else if type = "Universal Life" then
      "Universal life insurance offers flexibility in premiums and death benefits, " ++
      "along with a cash value component that can supplement your retirement planning."
    else
      "Term life insurance provides the most affordable way to secure maximum coverage " ++
      "during your working years when your family needs it most."
  let closingSentence : String :=
    "The recommended coverage of $" ++ intLocaleString coverage ++
    " represents a careful balance " ++
    "of your income replacement needs, family obligations, and premium affordability."
  String.intercalate " "
    [ageSentence, incomeSentence, dependentsSentence, riskSentence, typeSentence,
      closingSentence]

/-- Port of `calculateRecommendation`: the full orchestration in source order.
The logger calls in the source only emit log lines and do not touch the result,
so the embedding is the pure value computation. -/
def calculateRecommendation (profile : UserProfile) : RecommendationResponse :=
  let incomeMultiplier := getIncomeMultiplier profile.age
  let dependentsFactor : ℚ := 1 + profile.dependents * DEPENDENT_MULTIPLIER
  let riskAdjustment := RISK_ADJUSTMENTS profile.riskTolerance
  let coverage := calculateCoverage profile.income incomeMultiplier dependentsFactor
    riskAdjustment
  let term := determineTerm profile.age
  let insuranceType := determineInsuranceType profile
  let monthlyPremium := calculatePremium profile.age coverage term insuranceType
    profile.riskTolerance
  let explanation := generateExplanation profile coverage term insuranceType
    ⟨incomeMultiplier, dependentsFactor, riskAdjustment⟩
  ⟨⟨insuranceType, coverage, term, monthlyPremium⟩, explanation,
    ⟨incomeMultiplier, dependentsFactor, riskAdjustment⟩⟩

/-- Port of `getMLRecommendation`: logs a fallback notice and returns the
rules-based recommendation; the resolved promise value is the plain result. -/
def getMLRecommendation (profile : UserProfile) : RecommendationResponse :=
  calculateRecommendation profile

/-- Port of `adjustForHealthFactors`: takes a recommendation and arbitrary
health data (typed `any` in the source) and returns the recommendation. -/
def adjustForHealthFactors {α : Type} (recommendation : RecommendationResponse)
    (healthData : α) : RecommendationResponse :=
  recommendation

/-- Characterisation of `jsRound` at a known output value. -/
lemma jsRound_eq (q : ℚ) (n : ℤ) (h1 : (n : ℚ) ≤ q + 1 / 2) (h2 : q + 1 / 2 < n + 1) :
    jsRound q = n := by
  rw [jsRound, Int.floor_eq_iff]
  exact ⟨h1, h2⟩

/-- Rounding a quantity of at least one half yields a positive integer. -/
lemma one_le_jsRound (q : ℚ) (h : (1 / 2 : ℚ) ≤ q) : 1 ≤ jsRound q := by
  rw [jsRound]
  refine Int.le_floor.mpr ?_
  push_cast
  linarith

/-- Unfolding lemma: the coverage field of the engine output is exactly the
snap-floor-cap pipeline of `calculateCoverage`. -/
lemma coverage_def (p : UserProfile) :
    (calculateRecommendation p).recommendation.coverage =
      min (max (jsRound ((p.income * getIncomeMultiplier p.age *
          (1 + p.dependents * DEPENDENT_MULTIPLIER) *
          RISK_ADJUSTMENTS p.riskTolerance) / 10000) * 10000) 100000)
        ((p.income : ℤ) * 30) := rfl

/-- Unfolding lemma: the premium field of the engine output is
`calculatePremium` applied to the computed coverage, term and type. -/
lemma premium_def (p : UserProfile) :
    (calculateRecommendation p).recommendation.monthlyPremium =
      calculatePremium p.age ((calculateRecommendation p).recommendation.coverage)
        (determineTerm p.age) (determineInsuranceType p) p.riskTolerance := rfl

/-- When the cap is at least the floor, the computed coverage is at least the
floor. -/
lemma coverage_ge_floor_aux (p : UserProfile) (hc : (100000 : ℤ) ≤ (p.income : ℤ) * 30) :
    100000 ≤ (calculateRecommendation p).recommendation.coverage := by
  rw [coverage_def]
  exact le_min (le_max_right _ _) hc

/-- The base premium rate is the constant 0.5. -/
lemma gpf_base (a t : ℕ) (ty : String) :
    (getPremiumFactors a t ty).basePremiumRate = 1 / 2 := by
  norm_num [getPremiumFactors]

/-- The age factor is the exponential age loading. -/
lemma gpf_age (a t : ℕ) (ty : String) :
    (getPremiumFactors a t ty).ageFactor = (1.045 : ℚ) ^ ((a : ℤ) - 25) := rfl

/-- The health factor is the constant 1.0. -/
lemma gpf_health (a t : ℕ) (ty : String) :
    (getPremiumFactors a t ty).healthFactor = 1 := by
  norm_num [getPremiumFactors]

/-- Every term factor in the table is at least 0.9. -/
lemma gpf_term_lb (a t : ℕ) (ty : String) :
    (9 / 10 : ℚ) ≤ (getPremiumFactors a t ty).termFactor := by
  show (9 / 10 : ℚ) ≤ (if t = 10 then (1.2 : ℚ) else if t = 15 then 1.1
    else if t = 20 then 1.0 else if t = 30 then 0.9 else 1.0)
  split_ifs <;> norm_num

/-- Every type factor in the table is at least 1. -/
lemma gpf_type_lb (a t : ℕ) (ty : String) :
    (1 : ℚ) ≤ (getPremiumFactors a t ty).typeFactor := by
  show (1 : ℚ) ≤ (if ty = "Term Life" then (1.0 : ℚ) else if ty = "Whole Life" then 3.5
    else if ty = "Universal Life" then 2.5 else 1.0)
  split_ifs <;> norm_num

/-- For ages at least 18 the exponential age loading is at least
1.045 to the power -7, hence above 0.7. -/
lemma ageFactor_lb (a : ℕ) (ha : 18 ≤ a) :
    (7 / 10 : ℚ) ≤ (1.045 : ℚ) ^ ((a : ℤ) - 25) := by
  have h1 : (-7 : ℤ) ≤ (a : ℤ) - 25 := by omega
  have h2 : (1.045 : ℚ) ^ (-7 : ℤ) ≤ (1.045 : ℚ) ^ ((a : ℤ) - 25) :=
    zpow_le_zpow_right₀ (by norm_num) h1
  have h3 : (7 / 10 : ℚ) ≤ (1.045 : ℚ) ^ (-7 : ℤ) := by norm_num
  linarith

/-- Arithmetic lower bound for the premium product from per-factor bounds. -/
lemma premium_product_lb (u af tf yf rm : ℚ) (hu : (100 : ℚ) ≤ u)
    (haf : (7 / 10 : ℚ) ≤ af) (htf : (9 / 10 : ℚ) ≤ tf) (hyf : (1 : ℚ) ≤ yf)
    (hrm : (19 / 20 : ℚ) ≤ rm) :
    (1 : ℚ) ≤ u * (1 / 2) * af * tf * yf * 1 * rm := by
  have h1 : (0 : ℚ) ≤ af := by linarith
  have h2 : (0 : ℚ) ≤ tf := by linarith
  have h3 : (0 : ℚ) ≤ yf := by linarith
  have h4 : (0 : ℚ) ≤ rm := by linarith
  have h5 : (0 : ℚ) ≤ u := by linarith
  calc (1 : ℚ) ≤ 100 * (1 / 2) * (7 / 10) * (9 / 10) * 1 * 1 * (19 / 20) := by norm_num
    _ ≤ u * (1 / 2) * af * tf * yf * 1 * rm := by gcongr <;> linarith

/-- Claim C7, amended: for every valid profile whose cap income x 30 is at
least 100000, the monthly premium is a positive integer. -/
theorem premium_positive_above_floor (p : UserProfile) (h : ValidProfile p)
    (hc : (100000 : ℤ) ≤ (p.income : ℤ) * 30) :
    0 < (calculateRecommendation p).recommendation.monthlyPremium := by
  have hcov := coverage_ge_floor_aux p hc
  rw [premium_def]
  simp only [calculatePremium]
  rw [gpf_base, gpf_age, gpf_health]
  have hu : (100 : ℚ) ≤ ((calculateRecommendation p).recommendation.coverage : ℚ) / 1000 := by
    have h100 : (100000 : ℚ) ≤ ((calculateRecommendation p).recommendation.coverage : ℚ) := by
      exact_mod_cast hcov
    linarith
  have haf := ageFactor_lb p.age h.1
  have htf := gpf_term_lb p.age (determineTerm p.age) (determineInsuranceType p)
  have hyf := gpf_type_lb p.age (determineTerm p.age) (determineInsuranceType p)
  rcases hrt : p.riskTolerance with _ | _ | _ <;>
    simp only [hrt, (by decide : (RiskTolerance.low = RiskTolerance.high) = False),
      (by decide : (RiskTolerance.medium = RiskTolerance.high) = False),
      (by decide : (RiskTolerance.medium = RiskTolerance.low) = False),
      (by decide : (RiskTolerance.high = RiskTolerance.high) = True),
      (by decide : (RiskTolerance.low = RiskTolerance.low) = True),
      if_true, if_false]
  · have := premium_product_lb _ _ _ _ (1.05 : ℚ) hu haf htf hyf (by norm_num)
    refine lt_of_lt_of_le Int.zero_lt_one (one_le_jsRound _ ?_)
    linarith
  · have := premium_product_lb _ _ _ _ (1 : ℚ) hu haf htf hyf (by norm_num)
    refine lt_of_lt_of_le Int.zero_lt_one (one_le_jsRound _ ?_)
    linarith
  · have := premium_product_lb _ _ _ _ (0.95 : ℚ) hu haf htf hyf (by norm_num)
    refine lt_of_lt_of_le Int.zero_lt_one (one_le_jsRound _ ?_)
    linarith

/-- Claim C1: coverage sizing applies the floor before the cap.  For every
valid profile the coverage equals
min(max(round(income x multiplier x dependentsFactor x riskAdjustment / 10000)
x 10000, 100000), income x 30); consequently coverage is at most income x 30,
and whenever income x 30 < 100000 the cap wins exactly. -/
theorem coverage_floor_before_cap (p : UserProfile) (h : ValidProfile p) :
    (calculateRecommendation p).recommendation.coverage =
      min (max (jsRound ((p.income * getIncomeMultiplier p.age *
          (1 + p.dependents * DEPENDENT_MULTIPLIER) *
          RISK_ADJUSTMENTS p.riskTolerance) / 10000) * 10000) 100000)
        ((p.income : ℤ) * 30) ∧
    (calculateRecommendation p).recommendation.coverage ≤ (p.income : ℤ) * 30 ∧
    ((p.income : ℤ) * 30 < 100000 →
      (calculateRecommendation p).recommendation.coverage = (p.income : ℤ) * 30) := by
  refine ⟨coverage_def p, ?_, ?_⟩
  · rw [coverage_def]
    exact min_le_right _ _
  · intro h30
    rw [coverage_def]
    exact min_eq_right (le_trans (le_of_lt h30) (le_max_right _ _))

/-- Claim C2: the age-band tables hold on [18,100]; the income multiplier is
15 / 12 / 10 / 8 by age band, the term is 30 / 20 / 15 / 10 by age band, the
term is always one of 10, 15, 20, 30, and the term is non-increasing in age. -/
theorem age_band_tables (a b : ℕ) (ha1 : 18 ≤ a) (ha2 : a ≤ 100) (hb1 : 18 ≤ b)
    (hb2 : b ≤ 100) (hab : a ≤ b) :
    (a < 30 → getIncomeMultiplier a = 15) ∧
    (30 ≤ a → a < 40 → getIncomeMultiplier a = 12) ∧
    (40 ≤ a → a < 50 → getIncomeMultiplier a = 10) ∧
    (50 ≤ a → getIncomeMultiplier a = 8) ∧
    (a < 35 → determineTerm a = 30) ∧
    (35 ≤ a → a < 45 → determineTerm a = 20) ∧
    (45 ≤ a → a < 55 → determineTerm a = 15) ∧
    (55 ≤ a → determineTerm a = 10) ∧
    (determineTerm a = 10 ∨ determineTerm a = 15 ∨ determineTerm a = 20 ∨
      determineTerm a = 30) ∧
    determineTerm b ≤ determineTerm a := by
  unfold getIncomeMultiplier determineTerm
  refine ⟨?_, ?_, ?_, ?_, ?_, ?_, ?_, ?_, ?_, ?_⟩ <;>
    split_ifs <;>
      first
        | rfl
        | omega
        | norm_num
        | (intros; rfl)
        | (intros; exfalso; omega)

/-- Claim C3: policy-type classification is first-match-wins over the ordered
rules, and every profile with low risk tolerance and income 200000 is
classified Whole Life. -/
theorem policy_type_first_match (p : UserProfile) (h : ValidProfile p) :
    (calculateRecommendation p).recommendation.type =
      (if p.riskTolerance = .low ∧ p.income > 150000 then "Whole Life"
       else if p.riskTolerance = .medium ∧ p.income > 200000 ∧ p.age < 50 then
         "Universal Life"
       else "Term Life") ∧
    (p.riskTolerance = .low → p.income = 200000 →
      (calculateRecommendation p).recommendation.type = "Whole Life") := by
  constructor
  · rfl
  · intro h1 h2
    show determineInsuranceType p = "Whole Life"
    unfold determineInsuranceType
    rw [if_pos ⟨h1, by omega⟩]

/-- Claim C5, counterexample: the valid profile with age 25 and income 0 gets
coverage below 100000 (namely 0), refuting the unconditional floor claim. -/
theorem coverage_floor_fails_at_zero_income :
    ValidProfile ⟨25, 0, 0, .medium⟩ ∧
    (calculateRecommendation ⟨25, 0, 0, .medium⟩).recommendation.coverage < 100000 := by
  constructor
  · decide
  · rw [coverage_def]
    norm_num [getIncomeMultiplier, DEPENDENT_MULTIPLIER, RISK_ADJUSTMENTS]

/-- Claim C5, amended: for every valid profile whose cap income x 30 is at
least 100000, the computed coverage is at least 100000. -/
theorem coverage_floor_above_min_income (p : UserProfile) (h : ValidProfile p)
    (hc : (100000 : ℤ) ≤ (p.income : ℤ) * 30) :
    100000 ≤ (calculateRecommendation p).recommendation.coverage :=
  coverage_ge_floor_aux p hc

/-- Claim C6, counterexample: the valid profile with age 25 and income 500
gets coverage 15000, which is not a multiple of 10000. -/
theorem coverage_multiple_fails_at_income_500 :
    ValidProfile ⟨25, 500, 0, .medium⟩ ∧
    ¬((calculateRecommendation ⟨25, 500, 0, .medium⟩).recommendation.coverage % 10000 = 0) := by
  constructor
  · decide
  · rw [coverage_def]
    norm_num [getIncomeMultiplier, DEPENDENT_MULTIPLIER, RISK_ADJUSTMENTS]

/-- Claim C6, amended: for every valid profile the coverage is a multiple of
10000 or equals the cap income x 30. -/
theorem coverage_multiple_unless_capped (p : UserProfile) (h : ValidProfile p) :
    (calculateRecommendation p).recommendation.coverage % 10000 = 0 ∨
    (calculateRecommendation p).recommendation.coverage = (p.income : ℤ) * 30 := by
  rw [coverage_def]
  rcases min_cases (max (jsRound ((p.income * getIncomeMultiplier p.age *
      (1 + p.dependents * DEPENDENT_MULTIPLIER) *
      RISK_ADJUSTMENTS p.riskTolerance) / 10000) * 10000) 100000)
      ((p.income : ℤ) * 30) with ⟨he, _⟩ | ⟨he, _⟩
  · left
    rw [he]
    rcases max_cases (jsRound ((p.income * getIncomeMultiplier p.age *
        (1 + p.dependents * DEPENDENT_MULTIPLIER) *
        RISK_ADJUSTMENTS p.riskTolerance) / 10000) * 10000) 100000 with
      ⟨he2, _⟩ | ⟨he2, _⟩ <;> rw [he2]
    · omega
    · decide
  · right
    rw [he]

/-- Claim C4: end to end on the profile age 35, income 75000, dependents 2,
risk medium, the engine returns multiplier 12, dependents factor 1.5, risk
adjustment 1.0, coverage 1350000, term 20, type Term Life, and premium
1048, the rounding of 1350 x 0.5 x 1.045^10. -/
theorem end_to_end_profile_35 :
    (calculateRecommendation ⟨35, 75000, 2, .medium⟩).factors.incomeMultiplier = 12 ∧
    (calculateRecommendation ⟨35, 75000, 2, .medium⟩).factors.dependentsFactor = 1.5 ∧
    (calculateRecommendation ⟨35, 75000, 2, .medium⟩).factors.riskAdjustment = 1.0 ∧
    (calculateRecommendation ⟨35, 75000, 2, .medium⟩).recommendation.coverage = 1350000 ∧
    (calculateRecommendation ⟨35, 75000, 2, .medium⟩).recommendation.term = 20 ∧
    (calculateRecommendation ⟨35, 75000, 2, .medium⟩).recommendation.type = "Term Life" ∧
    (calculateRecommendation ⟨35, 75000, 2, .medium⟩).recommendation.monthlyPremium =
      jsRound (1350 * (0.5 : ℚ) * (1.045 : ℚ) ^ (10 : ℤ)) ∧
    (calculateRecommendation ⟨35, 75000, 2, .medium⟩).recommendation.monthlyPremium = 1048 := by
  have hcov : (calculateRecommendation ⟨35, 75000, 2, .medium⟩).recommendation.coverage
      = 1350000 := by
    rw [coverage_def]
    norm_num [getIncomeMultiplier, DEPENDENT_MULTIPLIER, RISK_ADJUSTMENTS]
    rw [jsRound_eq 135 135 (by norm_num) (by norm_num)]
    norm_num
  have hprem : (calculateRecommendation ⟨35, 75000, 2, .medium⟩).recommendation.monthlyPremium
      = 1048 := by
    rw [premium_def, hcov]
    norm_num [calculatePremium, getPremiumFactors, determineTerm, determineInsuranceType,
      (by decide : RiskTolerance.medium ≠ RiskTolerance.high),
      (by decide : RiskTolerance.medium ≠ RiskTolerance.low)]
    apply jsRound_eq
    · norm_num
    · norm_num
  have hjs : jsRound (1350 * (0.5 : ℚ) * (1.045 : ℚ) ^ (10 : ℤ)) = 1048 := by
    apply jsRound_eq
    · norm_num
    · norm_num
  exact ⟨by norm_num [calculateRecommendation, getIncomeMultiplier],
    by norm_num [calculateRecommendation, DEPENDENT_MULTIPLIER],
    by norm_num [calculateRecommendation, RISK_ADJUSTMENTS],
    hcov, rfl, rfl, by rw [hprem, hjs], hprem⟩

/-- Claim C7, counterexample: the valid profile with age 18 and income 1 has
positive income yet monthly premium exactly 0. -/
theorem premium_zero_at_income_one :
    ValidProfile ⟨18, 1, 0, .medium⟩ ∧
    0 < (⟨18, 1, 0, .medium⟩ : UserProfile).income ∧
    (calculateRecommendation ⟨18, 1, 0, .medium⟩).recommendation.monthlyPremium = 0 := by
  have hcov : (calculateRecommendation ⟨18, 1, 0, .medium⟩).recommendation.coverage = 30 := by
    rw [coverage_def]
    norm_num [getIncomeMultiplier, DEPENDENT_MULTIPLIER, RISK_ADJUSTMENTS]
  refine ⟨by decide, by decide, ?_⟩
  rw [premium_def, hcov]
  norm_num [calculatePremium, getPremiumFactors, determineTerm, determineInsuranceType,
    (by decide : RiskTolerance.medium ≠ RiskTolerance.high),
    (by decide : RiskTolerance.medium ≠ RiskTolerance.low)]
  apply jsRound_eq
  · norm_num
  · norm_num

/-- Claim C8: determinism; two invocations of the engine on equal profiles
yield identical policy fields, identical explanation text, identical factors
and identical full responses; the embedding is a pure function consulting no
external state. -/
theorem engine_deterministic (p q : UserProfile) (h : p = q) :
    (calculateRecommendation p).recommendation = (calculateRecommendation q).recommendation ∧
    (calculateRecommendation p).explanation = (calculateRecommendation q).explanation ∧
    (calculateRecommendation p).factors = (calculateRecommendation q).factors ∧
    calculateRecommendation p = calculateRecommendation q := by
  subst h
  exact ⟨rfl, rfl, rfl, rfl⟩

/-- Claim C9: the public method getMLRecommendation returns exactly the
rules-based calculateRecommendation response for every profile. -/
theorem ml_path_is_rules_engine (p : UserProfile) :
    getMLRecommendation p = calculateRecommendation p := rfl

/-- Claim C10: health data never influences any result; adjustForHealthFactors
is the identity on the recommendation for every health data value, and the
health factor used in premium pricing is the constant 1.0. -/
theorem health_data_is_inert :
    (∀ (α : Type) (r : RecommendationResponse) (hd : α), adjustForHealthFactors r hd = r) ∧
    (∀ (a t : ℕ) (ty : String), (getPremiumFactors a t ty).healthFactor = 1.0) := by
  constructor
  · intro α r hd
    rfl
  · intro a t ty
    rfl

/-- Witness for claim C1 at the profile age 40, income 2000, one dependent,
low risk, where the cap 60000 is below the floor. -/
theorem coverage_floor_before_cap_witness :
    ValidProfile ⟨40, 2000, 1, .low⟩ ∧
    ((calculateRecommendation ⟨40, 2000, 1, .low⟩).recommendation.coverage =
      min (max (jsRound (((⟨40, 2000, 1, .low⟩ : UserProfile).income *
          getIncomeMultiplier (⟨40, 2000, 1, .low⟩ : UserProfile).age *
          (1 + (⟨40, 2000, 1, .low⟩ : UserProfile).dependents * DEPENDENT_MULTIPLIER) *
          RISK_ADJUSTMENTS (⟨40, 2000, 1, .low⟩ : UserProfile).riskTolerance) / 10000) *
          10000) 100000)
        (((⟨40, 2000, 1, .low⟩ : UserProfile).income : ℤ) * 30) ∧
    (calculateRecommendation ⟨40, 2000, 1, .low⟩).recommendation.coverage ≤
      (((⟨40, 2000, 1, .low⟩ : UserProfile).income : ℤ) * 30) ∧
    ((((⟨40, 2000, 1, .low⟩ : UserProfile).income : ℤ) * 30 < 100000) →
      (calculateRecommendation ⟨40, 2000, 1, .low⟩).recommendation.coverage =
        ((⟨40, 2000, 1, .low⟩ : UserProfile).income : ℤ) * 30)) :=
  ⟨by decide, coverage_floor_before_cap ⟨40, 2000, 1, .low⟩ (by decide)⟩

/-- Witness for claim C2 at ages 40 and 60. -/
theorem age_band_tables_witness :
    (18 ≤ 40 ∧ 40 ≤ 100 ∧ 18 ≤ 60 ∧ 60 ≤ 100 ∧ 40 ≤ 60) ∧
    ((40 < 30 → getIncomeMultiplier 40 = 15) ∧
    (30 ≤ 40 → 40 < 40 → getIncomeMultiplier 40 = 12) ∧
    (40 ≤ 40 → 40 < 50 → getIncomeMultiplier 40 = 10) ∧
    (50 ≤ 40 → getIncomeMultiplier 40 = 8) ∧
    (40 < 35 → determineTerm 40 = 30) ∧
    (35 ≤ 40 → 40 < 45 → determineTerm 40 = 20) ∧
    (45 ≤ 40 → 40 < 55 → determineTerm 40 = 15) ∧
    (55 ≤ 40 → determineTerm 40 = 10) ∧
    (determineTerm 40 = 10 ∨ determineTerm 40 = 15 ∨ determineTerm 40 = 20 ∨
      determineTerm 40 = 30) ∧
    determineTerm 60 ≤ determineTerm 40) :=
  ⟨by decide,
    age_band_tables 40 60 (by decide) (by decide) (by decide) (by decide) (by decide)⟩

/-- Witness for claim C3 at the profile age 30, income 200000, low risk. -/
theorem policy_type_first_match_witness :
    ValidProfile ⟨30, 200000, 0, .low⟩ ∧
    ((calculateRecommendation ⟨30, 200000, 0, .low⟩).recommendation.type =
      (if (⟨30, 200000, 0, .low⟩ : UserProfile).riskTolerance = .low ∧
          (⟨30, 200000, 0, .low⟩ : UserProfile).income > 150000 then "Whole Life"
       else if (⟨30, 200000, 0, .low⟩ : UserProfile).riskTolerance = .medium ∧
          (⟨30, 200000, 0, .low⟩ : UserProfile).income > 200000 ∧
          (⟨30, 200000, 0, .low⟩ : UserProfile).age < 50 then "Universal Life"
       else "Term Life") ∧
    ((⟨30, 200000, 0, .low⟩ : UserProfile).riskTolerance = .low →
      (⟨30, 200000, 0, .low⟩ : UserProfile).income = 200000 →
      (calculateRecommendation ⟨30, 200000, 0, .low⟩).recommendation.type = "Whole Life")) :=
  ⟨by decide, policy_type_first_match ⟨30, 200000, 0, .low⟩ (by decide)⟩

/-- Witness for the amended claim C5 at the profile age 25, income 4000. -/
theorem coverage_floor_above_min_income_witness :
    (ValidProfile ⟨25, 4000, 0, .medium⟩ ∧
      (100000 : ℤ) ≤ (((⟨25, 4000, 0, .medium⟩ : UserProfile).income : ℤ) * 30)) ∧
    100000 ≤ (calculateRecommendation ⟨25, 4000, 0, .medium⟩).recommendation.coverage :=
  ⟨⟨by decide, by decide⟩,
    coverage_floor_above_min_income ⟨25, 4000, 0, .medium⟩ (by decide) (by decide)⟩

/-- Witness for the amended claim C6 at the profile age 45, income 500,
three dependents, high risk. -/
theorem coverage_multiple_unless_capped_witness :
    ValidProfile ⟨45, 500, 3, .high⟩ ∧
    ((calculateRecommendation ⟨45, 500, 3, .high⟩).recommendation.coverage % 10000 = 0 ∨
      (calculateRecommendation ⟨45, 500, 3, .high⟩).recommendation.coverage =
        (((⟨45, 500, 3, .high⟩ : UserProfile).income : ℤ) * 30)) :=
  ⟨by decide, coverage_multiple_unless_capped ⟨45, 500, 3, .high⟩ (by decide)⟩

/-- Witness for the amended claim C7 at the profile age 50, income 10000. -/
theorem premium_positive_above_floor_witness :
    (ValidProfile ⟨50, 10000, 1, .high⟩ ∧
      (100000 : ℤ) ≤ (((⟨50, 10000, 1, .high⟩ : UserProfile).income : ℤ) * 30)) ∧
    0 < (calculateRecommendation ⟨50, 10000, 1, .high⟩).recommendation.monthlyPremium :=
  ⟨⟨by decide, by decide⟩,
    premium_positive_above_floor ⟨50, 10000, 1, .high⟩ (by decide) (by decide)⟩

/-- Witness for claim C8 at the profile age 35, income 75000. -/
theorem engine_deterministic_witness :
    (⟨35, 75000, 2, .medium⟩ : UserProfile) = (⟨35, 75000, 2, .medium⟩ : UserProfile) ∧
    calculateRecommendation ⟨35, 75000, 2, .medium⟩ =
      calculateRecommendation ⟨35, 75000, 2, .medium⟩ :=
  ⟨rfl, (engine_deterministic ⟨35, 75000, 2, .medium⟩ ⟨35, 75000, 2, .medium⟩ rfl).2.2.2⟩
